import Mathlib

/-
Shallow embedding of the tentacle repository.

Embedded source files:
  * src/tests/utils.py -- the RPC Publisher (construction checks, payload
    building, publishing, the correlated-response drain loop with timeout,
    and the RETRY response filter), together with its two concrete
    subclasses KrakenPublisher and NautilusPublisher;
  * src/tentacle/endpointworker.py -- EndpointConsumer.on_message, the
    dispatch gateway that decodes a message, rejects envelopes without an
    action field, resolves the namespace-prefixed action in the celery task
    registry and acknowledges after asynchronous submission.

Python dictionaries are modelled as association lists (first binding wins,
as with a Python dict there is at most one binding per key in practice);
Python values as the inductive type Val; exceptions as Except / an error
component.  Wall-clock time in the drain loop is modelled by tagging every
incoming broker event with its arrival time (a natural number of seconds):
kombu drain_events(timeout=T) started at instant now delivers the next
pending event if it arrives no later than now + T, and otherwise raises
TimeoutError at instant now + T.  Serialization by the external codec
(json_dumps / msgpack_dumps, from the siren collaborator) is modelled as
the identity on the structured value, which the spec licenses: both codecs
round-trip every envelope shape losslessly.
-/

namespace Tentacle

/-- Python-style values appearing in decoded message bodies and payloads:
None, booleans, integers, strings, lists and dictionaries. -/
inductive Val where
  | vNull
  | vBool (b : Bool)
  | vInt (n : Int)
  | vStr (s : String)
  | vList (xs : List Val)
  | vDict (d : List (String × Val))

/-- A decoded response body or message payload: a Python dict, modelled as
an association list from string keys to values. -/
abbrev RDict := List (String × Val)

/-- Python d.get(k): the value bound to the first occurrence of key k, or
None (here: none) when the key is absent. -/
def dget (d : RDict) (k : String) : Option Val :=
  match d with
  | [] => none
  | p :: rest => if p.1 = k then some p.2 else dget rest k

/-- Python truthiness of a value: None, False, 0, the empty string, the
empty list and the empty dict are falsy, everything else is truthy. -/
def truthy : Val → Bool
  | .vNull => false
  | .vBool b => b
  | .vInt n => n != 0
  | .vStr s => s != ""
  | .vList xs => !xs.isEmpty
  | .vDict d => !d.isEmpty

/-- Whether body.get("status") is exactly the string "RETRY".  Any other
value, a non-string status, and an absent status field all count as not
RETRY, mirroring the Python comparison status != "RETRY". -/
def statusIsRetry (body : RDict) : Bool :=
  match dget body "status" with
  | some (.vStr s) => s == "RETRY"
  | _ => false

/-- Publisher.on_response from src/tests/utils.py.  State passed
explicitly: corr is self.corr_id, resp is the current self.response (None
at the start of call()), body is the delivered message body and msgCorr is
message.properties.get("correlation_id").  The body is stored exactly when
the correlation id matches and the status is not "RETRY". -/
def on_response (corr : Option String) (resp : Option RDict)
    (body : RDict) (msgCorr : Option String) : Option RDict :=
  if corr = msgCorr then
    if statusIsRetry body then resp else some body
  else resp

/-- Python truthiness of the self.response slot: None is falsy, a stored
dict is truthy exactly when it is non-empty.  This is the loop condition
of call(): while not self.response: drain. -/
def respTruthy : Option RDict → Bool
  | none => false
  | some d => !d.isEmpty

/-- One broker event delivered on the reply queue: arrival time (seconds
since call start), the correlation_id message property, and the decoded
body. -/
abbrev TimedEvent := Nat × Option String × RDict

/-- The drain loop of Publisher.call() from src/tests/utils.py:

  while not self.response: conn.drain_events(timeout=self.timeout)

Each drain_events call waits from the current instant now for the next
pending event; if that event arrives within now + timeout it is processed
by on_response, otherwise TimeoutError is raised at instant now + timeout
and call() returns None.  The result is the pair (instant at which call()
returns, returned value): some body on a stored truthy response, none on
timeout.  Note that every drain_events call receives the full
self.timeout again. -/
def drainEvents (corr : Option String) (timeout : Nat) :
    Nat → Option RDict → List TimedEvent → Nat × Option RDict
  | now, resp, [] =>
      if respTruthy resp then (now, resp) else (now + timeout, none)
  | now, resp, (t, mc, b) :: rest =>
      if respTruthy resp then (now, resp)
      else if t ≤ now + timeout then
        drainEvents corr timeout (max now t) (on_response corr resp b mc) rest
      else (now + timeout, none)

/-- Class-level attributes of a Publisher subclass from src/tests/utils.py:
user, password, the exchange attribute (none models hasattr failing), the
routing_key attribute, needs_response and the timeout. -/
structure PubClass where
  user : Option String := none
  password : Option String := none
  exchange : Option String := none
  routing_key : Option String := none
  needs_response : Bool := true
  timeout : Nat := 5

/-- Instance state established by Publisher.__init__: the stored _args and
_kwargs (after popping payload), the generated corr_id and the payload. -/
structure PublisherState where
  cls : PubClass
  args : List Val
  kwargs : RDict
  corr_id : Option String
  payload : Val

/-- Publisher.__init__ from src/tests/utils.py.  fresh is the string the
uuid4 call would produce; gp is the get_payload implementation of the
concrete subclass, a function of (self.corr_id, self._args, self._kwargs).
Checks run in source order: missing credentials (user is None and password
is None), missing exchange attribute, then -- after kwargs.pop("payload")
-- the args/kwargs mutual-exclusivity check.  corr_id is generated only
when needs_response holds, and self.payload is the popped payload when it
is truthy, else get_payload(). -/
def initPublisher (cls : PubClass) (fresh : String)
    (gp : Option String → List Val → RDict → Val)
    (args : List Val) (kwargs : RDict) : Except String PublisherState :=
  if cls.user = none ∧ cls.password = none then
    .error "Please provide a username and password."
  else if cls.exchange = none then
    .error "Please provide an exchange name."
  else if !args.isEmpty && !(kwargs.filter (fun q => q.1 ≠ "payload")).isEmpty then
    .error "Please provide only args OR only kwargs."
  else
    let corr := if cls.needs_response then some fresh else none
    let kwargs2 := kwargs.filter (fun q => q.1 ≠ "payload")
    let payload :=
      match dget kwargs "payload" with
      | some p => if truthy p then p else gp corr args kwargs2
      | none => gp corr args kwargs2
    .ok { cls := cls, args := args, kwargs := kwargs2,
          corr_id := corr, payload := payload }

/-- Whether construction succeeded (no exception escaped __init__). -/
def initOk : Except String PublisherState → Bool
  | .ok _ => true
  | .error _ => false

/-- A correlation id slot as it appears inside a built payload: the string
itself, or Python None when no correlation id was generated. -/
def corrVal : Option String → Val
  | some s => .vStr s
  | none => .vNull

/-- Publisher.get_properties from src/tests/utils.py: persistent delivery
always; correlation_id and reply_to (both the corr_id) only when the
publisher needs a response. -/
def get_properties (needs : Bool) (corr : Option String) : RDict :=
  ("delivery_mode", Val.vInt 2) ::
    (if needs then
      [("correlation_id", corrVal corr), ("reply_to", corrVal corr)]
     else [])

/-- Publisher.get_routing_key from src/tests/utils.py: the routing_key
attribute when present, otherwise an exception. -/
def get_routing_key (cls : PubClass) : Except String String :=
  match cls.routing_key with
  | some rk => .ok rk
  | none => .error "Please provide a routing key or override the get_routing_key function."

/-- The message handed to producer.publish in Publisher.call(): body,
routing key and publish properties. -/
structure Published where
  body : Val
  rkey : String
  props : RDict

/-- Publisher.call() from src/tests/utils.py, over an explicit stream of
timed reply-queue events.  It builds the publish message (fetching the
routing key, which may raise), publishes, returns None immediately when
needs_response is false, and otherwise runs the drain loop from instant 0
with self.response = None.  The result carries the published message, the
instant at which call() returns, and the returned value. -/
def call (st : PublisherState) (events : List TimedEvent) :
    Except String (Published × Nat × Option RDict) :=
  match get_routing_key st.cls with
  | .error e => .error e
  | .ok rk =>
      let pub : Published :=
        { body := st.payload, rkey := rk,
          props := get_properties st.cls.needs_response st.corr_id }
      if st.cls.needs_response then
        .ok (pub, drainEvents st.corr_id st.cls.timeout 0 none events)
      else
        .ok (pub, 0, none)

/-- KrakenPublisher class attributes from src/tests/utils.py: exchange and
routing key "kraken", credentials and host data from Config, and
needs_response = False.  The unknown Config credential values are
parameters. -/
def krakenClass (u p : Option String) : PubClass :=
  { user := u, password := p, exchange := some "kraken",
    routing_key := some "kraken", needs_response := false }

/-- KrakenPublisher.get_payload from src/tests/utils.py: the celery
message, with params = self._args or self._kwargs (the args tuple when
non-empty, else the kwargs dict). -/
def krakenGetPayload (method : String) (corr : Option String)
    (args : List Val) (kwargs : RDict) : Val :=
  let params := if args.isEmpty then Val.vDict kwargs else Val.vList args
  .vDict [("id", corrVal corr),
          ("task", .vStr "kraken.tasks.RPCTask"),
          ("kwargs", .vDict [("id", corrVal corr),
                             ("jsonrpc", .vStr "2.0"),
                             ("method", .vStr method),
                             ("params", params)])]

/-- NautilusPublisher class attributes from src/tests/utils.py: exchange
and routing key "nautilus", Config credentials, needs_response = False. -/
def nautilusClass (u p : Option String) : PubClass :=
  { user := u, password := p, exchange := some "nautilus",
    routing_key := some "nautilus", needs_response := false }

/-- NautilusPublisher.get_payload from src/tests/utils.py: like the Kraken
payload but the task field is the method itself and the inner kwargs dict
has no method key. -/
def nautilusGetPayload (method : String) (corr : Option String)
    (args : List Val) (kwargs : RDict) : Val :=
  let params := if args.isEmpty then Val.vDict kwargs else Val.vList args
  .vDict [("id", corrVal corr),
          ("task", .vStr method),
          ("kwargs", .vDict [("id", corrVal corr),
                             ("jsonrpc", .vStr "2.0"),
                             ("params", params)])]

/-- Observable broker-side actions of the dispatch gateway, in the order
EndpointConsumer.on_message performs them: the info-level log line, a
message.reject(), a successful registry resolution, the asynchronous
submission via delay (fire-and-forget, no handler execution in this
trace), and a message.ack(). -/
inductive GwAction where
  | logInfo
  | reject
  | resolve (name : String)
  | submit (name : String) (taskPayload : Val)
  | ack

/-- Python subscription x[k] on an optional value (the result of
payload.get("task")): None and non-dict values raise TypeError, a dict
lacking the key raises KeyError. -/
def pyGetItem : Option Val → String → Except String Val
  | none, _ => .error "TypeError"
  | some (.vDict d), k =>
      match dget d k with
      | some v => .ok v
      | none => .error ("KeyError: " ++ k)
  | some _, _ => .error "TypeError"

/-- EndpointConsumer.on_message from src/tentacle/endpointworker.py over an
already-decoded payload dict.  tasks is the set of registered celery task
names (app.tasks).  Returns the trace of performed gateway actions and the
exception escaping on_message, if any.  Source order: the missing-action
check (log + reject); otherwise the info log line evaluates
task_payload["id"] eagerly (so a malformed task field raises before
anything is logged or routed); then the registry lookup
app.tasks["tentacle.endpointtasks." + action] (KeyError on an unknown
action, TypeError when action is not a string), .delay(task_payload), and
message.ack(). -/
def on_message (tasks : List String) (payload : RDict) :
    List GwAction × Option String :=
  match dget payload "action" with
  | none => ([.logInfo, .reject], none)
  | some action =>
      match pyGetItem (dget payload "task") "id" with
      | .error e => ([], some e)
      | .ok _ =>
          match action with
          | .vStr a =>
              if tasks.contains ("tentacle.endpointtasks." ++ a) then
                ([.logInfo, .resolve ("tentacle.endpointtasks." ++ a),
                  .submit ("tentacle.endpointtasks." ++ a)
                    ((dget payload "task").getD .vNull), .ack], none)
              else ([.logInfo], some ("KeyError: " ++ ("tentacle.endpointtasks." ++ a)))
          | _ => ([.logInfo], some "TypeError")

/-- Whether a timed event ends the drain loop of a call owning correlation
id corr: the correlation property matches, the status is not RETRY (so
on_response stores the body), and the body is truthy (so the while
condition fails).  Everything else leaves the loop waiting. -/
def terminalFor (corr : Option String) (e : TimedEvent) : Bool :=
  (corr == e.2.1) && !statusIsRetry e.2.2 && !e.2.2.isEmpty

/-- Arrival-time discipline for an event stream relative to a drain start
instant: times are non-decreasing and each event arrives within timeout of
the preceding instant, so every drain_events call sees its event before
raising TimeoutError. -/
def withinBudget (T : Nat) : Nat → List TimedEvent → Bool
  | _, [] => true
  | now, (t, _, _) :: rest =>
      decide (now ≤ t) && decide (t ≤ now + T) && withinBudget T t rest

/-- The arrival instant of the last event of a stream (the start instant
for an empty stream). -/
def lastTime (now : Nat) : List TimedEvent → Nat
  | [] => now
  | (t, _, _) :: rest => lastTime t rest

/-- Field access on a built payload value: dictionary lookup when the
value is a dict, nothing otherwise. -/
def vget (v : Val) (k : String) : Option Val :=
  match v with
  | .vDict d => dget d k
  | _ => none

/-- Two-level field access on a built payload value. -/
def vget2 (v : Val) (k1 k2 : String) : Option Val :=
  match vget v k1 with
  | some w => vget w k2
  | none => none

/-
Drain-loop lemmas shared by the publisher claims.
-/

/-- Unfolding equation of the drain loop on an exhausted stream. -/
theorem drainEvents_nil (corr : Option String) (T now : Nat)
    (resp : Option RDict) :
    drainEvents corr T now resp []
      = if respTruthy resp then (now, resp) else (now + T, none) := rfl

/-- Unfolding equation of the drain loop on a pending event. -/
theorem drainEvents_cons (corr : Option String) (T now : Nat)
    (resp : Option RDict) (t : Nat) (mc : Option String) (b : RDict)
    (rest : List TimedEvent) :
    drainEvents corr T now resp ((t, mc, b) :: rest)
      = if respTruthy resp then (now, resp)
        else if t ≤ now + T then
          drainEvents corr T (max now t) (on_response corr resp b mc) rest
        else (now + T, none) := rfl

/-- When the stored response is already truthy, the drain loop exits at
once at the current instant, whatever events are still pending. -/
theorem drain_of_truthy (corr : Option String) (T now : Nat)
    (resp : Option RDict) (events : List TimedEvent)
    (h : respTruthy resp = true) :
    drainEvents corr T now resp events = (now, resp) := by
  cases events with
  | nil => simp [drainEvents, h]
  | cons e rest =>
      obtain ⟨t, mc, b⟩ := e
      simp [drainEvents, h]

/-- Processing a non-terminal event keeps the stored response non-truthy,
so the drain loop keeps waiting. -/
theorem on_response_nonterminal (corr : Option String) (resp : Option RDict)
    (mc : Option String) (b : RDict)
    (h1 : respTruthy resp = false)
    (h2 : ((corr == mc) && !statusIsRetry b && !b.isEmpty) = false) :
    respTruthy (on_response corr resp b mc) = false := by
  unfold on_response
  by_cases hm : corr = mc
  · cases hr : statusIsRetry b with
    | true => simp [hm, hr, h1]
    | false =>
        have hb : b.isEmpty = true := by simpa [hm, hr] using h2
        simp [hm, hr, respTruthy, hb]
  · simp [hm, h1]

/-- Core of the timeout behaviour: when no event of the stream is terminal
for the call and all events arrive within budget, the drain loop processes
every event (restarting the timeout clock at each one) and finally returns
None at the instant (arrival of the last event) + timeout. -/
theorem drain_no_terminal (corr : Option String) (T : Nat)
    (events : List TimedEvent) :
    ∀ (now : Nat) (resp : Option RDict),
    respTruthy resp = false →
    (∀ e ∈ events, terminalFor corr e = false) →
    withinBudget T now events = true →
    drainEvents corr T now resp events = (lastTime now events + T, none) := by
  induction events with
  | nil => intro now resp h1 _ _; simp [drainEvents, lastTime, h1]
  | cons e rest ih =>
      obtain ⟨t, mc, b⟩ := e
      intro now resp h1 h2 h3
      simp only [withinBudget, Bool.and_eq_true, decide_eq_true_eq] at h3
      obtain ⟨⟨hle, hbud⟩, hrest⟩ := h3
      have hterm : terminalFor corr (t, mc, b) = false :=
        h2 (t, mc, b) (List.mem_cons_self _ _)
      unfold terminalFor at hterm
      rw [drainEvents_cons, if_neg (by simp [h1]), if_pos hbud,
          max_eq_right hle,
          ih t _ (on_response_nonterminal corr resp mc b h1 hterm)
            (fun e he => h2 e (List.mem_cons_of_mem _ he)) hrest]
      rfl

/-- Core of the retry-filter behaviour: a stream of RETRY notices
addressed to the call, followed by a terminal response with a truthy body,
makes the drain loop return that body at its arrival instant. -/
theorem drain_retries_then_terminal (corr : Option String) (T : Nat)
    (body : RDict) (tT : Nat) (retries : List TimedEvent) :
    ∀ (now : Nat),
    (∀ e ∈ retries, ((e.2.1 == corr) && statusIsRetry e.2.2) = true) →
    withinBudget T now (retries ++ [(tT, corr, body)]) = true →
    body.isEmpty = false →
    statusIsRetry body = false →
    drainEvents corr T now none (retries ++ [(tT, corr, body)])
      = (tT, some body) := by
  induction retries with
  | nil =>
      intro now _ h2 h3 h4
      simp only [List.nil_append, withinBudget, Bool.and_eq_true,
                 decide_eq_true_eq] at h2
      obtain ⟨⟨hle, hbud⟩, _⟩ := h2
      rw [List.nil_append, drainEvents_cons, if_neg (by simp [respTruthy]),
          if_pos hbud, max_eq_right hle]
      have hresp : on_response corr none body corr = some body := by
        unfold on_response
        simp [h4]
      rw [hresp, drainEvents_nil, if_pos (by simp [respTruthy, h3])]
  | cons e rest ih =>
      obtain ⟨t, mc, b⟩ := e
      intro now h1 h2 h3 h4
      simp only [List.cons_append, withinBudget, Bool.and_eq_true,
                 decide_eq_true_eq] at h2
      obtain ⟨⟨hle, hbud⟩, hrest⟩ := h2
      have hr : ((mc == corr) && statusIsRetry b) = true :=
        h1 (t, mc, b) (List.mem_cons_self _ _)
      simp only [Bool.and_eq_true, beq_iff_eq] at hr
      rw [List.cons_append, drainEvents_cons, if_neg (by simp [respTruthy]),
          if_pos hbud, max_eq_right hle]
      have hresp : on_response corr none b mc = none := by
        unfold on_response
        simp [hr.1, hr.2]
      rw [hresp]
      exact ih t (fun e he => h1 e (List.mem_cons_of_mem _ he)) hrest h3 h4

/-
Gateway theorems (claims C3, C4, C5, C6).
-/

/-- C3: for every decoded payload lacking an action field, on_message logs
at info level and rejects the message; the trace contains no ack, no
resolution and no submission, and no exception escapes. -/
theorem c3_missing_action_rejected (tasks : List String) (payload : RDict)
    (h : dget payload "action" = none) :
    on_message tasks payload = ([GwAction.logInfo, GwAction.reject], none) := by
  unfold on_message
  rw [h]

/-- C3 witness: the spec example body with a task field but no action key
is rejected, not routed. -/
theorem c3_missing_action_rejected_witness :
    dget [("task", Val.vDict [("id", Val.vStr "x")])] "action" = none ∧
    on_message ["tentacle.endpointtasks.foo"]
        [("task", Val.vDict [("id", Val.vStr "x")])]
      = ([GwAction.logInfo, GwAction.reject], none) :=
  ⟨rfl, c3_missing_action_rejected _ _ rfl⟩

/-- Exhaustive shape analysis of the on_message result: either the
acknowledged full trace with a successfully resolved action, or one of the
three ack-free traces (reject path, eager-subscript failure, lookup or
concatenation failure). -/
theorem on_message_shape (tasks : List String) (payload : RDict) :
    (∃ a tp, on_message tasks payload
        = ([GwAction.logInfo, GwAction.resolve a, GwAction.submit a tp,
            GwAction.ack], none)
      ∧ tasks.contains a = true)
    ∨ (on_message tasks payload).1 = [GwAction.logInfo, GwAction.reject]
    ∨ (on_message tasks payload).1 = []
    ∨ (on_message tasks payload).1 = [GwAction.logInfo] := by
  unfold on_message
  cases hA : dget payload "action" with
  | none => right; left; rfl
  | some action =>
      cases hI : pyGetItem (dget payload "task") "id" with
      | error e => right; right; left; rfl
      | ok v =>
          cases action with
          | vStr a =>
              cases hc : tasks.contains ("tentacle.endpointtasks." ++ a) with
              | true =>
                  have hm : "tentacle.endpointtasks." ++ a ∈ tasks := by
                    simpa using hc
                  refine Or.inl ⟨"tentacle.endpointtasks." ++ a,
                                 (dget payload "task").getD .vNull, ?_, hc⟩
                  simp [hm]
              | false =>
                  have hm : "tentacle.endpointtasks." ++ a ∉ tasks := by
                    simpa using hc
                  right; right; right; simp [hm]
          | vNull => right; right; right; rfl
          | vBool b => right; right; right; rfl
          | vInt n => right; right; right; rfl
          | vList xs => right; right; right; rfl
          | vDict d => right; right; right; rfl

/-- C4: whenever on_message acknowledges, the whole trace is exactly log,
successful namespace-prefixed resolution, asynchronous submission, then
ack -- so acknowledgment never precedes a successful resolve, follows the
submission, and no handler-execution step occurs before the ack (delay is
fire-and-forget). -/
theorem c4_ack_only_after_resolve_and_submit (tasks : List String)
    (payload : RDict) (h : GwAction.ack ∈ (on_message tasks payload).1) :
    ∃ a tp, on_message tasks payload
        = ([GwAction.logInfo, GwAction.resolve a, GwAction.submit a tp,
            GwAction.ack], none)
      ∧ tasks.contains a = true := by
  rcases on_message_shape tasks payload with hS | hS | hS | hS
  · exact hS
  · rw [hS] at h; simp at h
  · rw [hS] at h; simp at h
  · rw [hS] at h; simp at h

/-- C4 witness: a registered action with a well-formed task payload is
acknowledged, and the trace shape pins the ordering. -/
theorem c4_ack_only_after_resolve_and_submit_witness :
    ∃ a tp, on_message ["tentacle.endpointtasks.foo"]
        [("action", Val.vStr "foo"), ("task", Val.vDict [("id", Val.vStr "t1")])]
        = ([GwAction.logInfo, GwAction.resolve a, GwAction.submit a tp,
            GwAction.ack], none)
      ∧ ["tentacle.endpointtasks.foo"].contains a = true :=
  c4_ack_only_after_resolve_and_submit _ _ (by simp [on_message, pyGetItem, dget])

/-- C5: when the action is present (a string) and the task payload is
well-formed but the namespace-prefixed name is not registered, the lookup
failure escapes on_message as an exception; the trace shows the message
was neither acknowledged nor rejected, so it is not silently lost. -/
theorem c5_unknown_action_fatal (tasks : List String) (payload : RDict)
    (a : String) (v : Val)
    (h1 : dget payload "action" = some (Val.vStr a))
    (h2 : pyGetItem (dget payload "task") "id" = .ok v)
    (h3 : tasks.contains ("tentacle.endpointtasks." ++ a) = false) :
    on_message tasks payload
      = ([GwAction.logInfo], some ("KeyError: " ++ ("tentacle.endpointtasks." ++ a))) := by
  unfold on_message
  rw [h1, h2]
  simp at h3
  simp [h3]

/-- C5 witness: an unregistered action name propagates a KeyError and the
message is never acknowledged. -/
theorem c5_unknown_action_fatal_witness :
    on_message ["tentacle.endpointtasks.other"]
        [("action", Val.vStr "foo"), ("task", Val.vDict [("id", Val.vStr "t1")])]
      = ([GwAction.logInfo], some ("KeyError: " ++ ("tentacle.endpointtasks." ++ "foo"))) :=
  c5_unknown_action_fatal _ _ "foo" (Val.vStr "t1") rfl rfl rfl

/-- C6 counterexample: the payload with an action key but no task field
does not degrade to the missing-action outcome -- on_message raises a
TypeError (while evaluating the log arguments) before logging, routing,
acknowledging or rejecting, whereas the missing-action path rejects
cleanly.  This refutes the claim that such payloads never raise. -/
theorem c6_malformed_task_cex :
    on_message ["tentacle.endpointtasks.foo"] [("action", Val.vStr "foo")]
      = ([], some "TypeError") ∧
    on_message ["tentacle.endpointtasks.foo"] [("task", Val.vDict [])]
      = ([GwAction.logInfo, GwAction.reject], none) ∧
    some "TypeError" ≠ (none : Option String) :=
  ⟨rfl, rfl, by simp⟩

/-- C6 amended: when the action field is present but the task field is
absent, not a mapping, or lacks an id key (so that the eager
task_payload["id"] subscript in the log call fails), on_message raises
that exception before performing any gateway action: nothing is logged,
routed, acknowledged or rejected. -/
theorem c6_malformed_task_raises (tasks : List String) (payload : RDict)
    (action : Val) (e : String)
    (h1 : dget payload "action" = some action)
    (h2 : pyGetItem (dget payload "task") "id" = .error e) :
    on_message tasks payload = ([], some e) := by
  unfold on_message
  rw [h1, h2]

/-- C6 amended witness: a non-dict task value raises a TypeError with an
empty action trace. -/
theorem c6_malformed_task_raises_witness :
    on_message [] [("action", Val.vStr "x"), ("task", Val.vInt 3)]
      = ([], some "TypeError") :=
  c6_malformed_task_raises _ _ (Val.vStr "x") "TypeError" rfl rfl

/-
Publisher theorems (claims C1, C2, C8, C7, C9, C10).
-/

/-- C1 counterexample: a stream consisting of zero RETRY notices followed
by a terminal response whose body is the empty dict (no status field, so
terminal) is stored by on_response, yet the drain loop of call() does not
return it: the truthiness-based while condition never fails on an empty
dict, so the loop drains on and returns the timeout sentinel None instead
of the first terminal response body. -/
theorem c1_retry_filter_cex :
    on_response (some "abc") none [] (some "abc") = some []
    ∧ statusIsRetry [] = false
    ∧ drainEvents (some "abc") 5 0 none [(0, some "abc", [])] = (5, none) :=
  ⟨rfl, rfl, rfl⟩

/-- C1 amended: for a stream of RETRY notices addressed to the call
followed by a terminal response with a truthy (non-empty) body, the drain
loop of call() returns exactly that first terminal body at its arrival
instant, silently discarding every RETRY notice; and on_response stores a
body if and only if the message correlation id equals the one owned by the
call and the status is not RETRY.  The original claim fails only for
falsy terminal bodies (see the counterexample). -/
theorem c1_retry_filter (corr : Option String) (T : Nat)
    (retries : List TimedEvent) (tT : Nat) (body : RDict)
    (h1 : ∀ e ∈ retries, ((e.2.1 == corr) && statusIsRetry e.2.2) = true)
    (h2 : withinBudget T 0 (retries ++ [(tT, corr, body)]) = true)
    (h3 : body.isEmpty = false)
    (h4 : statusIsRetry body = false) :
    drainEvents corr T 0 none (retries ++ [(tT, corr, body)]) = (tT, some body)
    ∧ ∀ (c m : Option String) (r : Option RDict) (b : RDict),
        on_response c r b m =
          if c = m ∧ statusIsRetry b = false then some b else r := by
  constructor
  · exact drain_retries_then_terminal corr T body tT retries 0 h1 h2 h3 h4
  · intro c m r b
    unfold on_response
    by_cases hm : c = m
    · cases hr : statusIsRetry b with
      | true => simp [hm, hr]
      | false => simp [hm, hr]
    · simp [hm]

/-- C1 witness: the spec example stream RETRY, RETRY, then a status OK
body carrying value 42 makes the call return the OK body. -/
theorem c1_retry_filter_witness :
    drainEvents (some "abc") 5 0 none
        ([(1, some "abc", [("status", Val.vStr "RETRY")]),
          (2, some "abc", [("status", Val.vStr "RETRY")])]
          ++ [(3, some "abc",
               [("status", Val.vStr "OK"), ("value", Val.vInt 42)])])
      = (3, some [("status", Val.vStr "OK"), ("value", Val.vInt 42)])
    ∧ ∀ (c m : Option String) (r : Option RDict) (b : RDict),
        on_response c r b m =
          if c = m ∧ statusIsRetry b = false then some b else r :=
  c1_retry_filter (some "abc") 5 _ 3 _ (by decide) (by decide) rfl rfl

/-- C2 counterexample: with timeout 5 and two RETRY notices arriving at
instants 4 and 8, each drain_events call receives the full timeout again,
so call() returns the timeout sentinel only at instant 13 -- beyond
T + epsilon from call start even for epsilon as large as T.  Receiving a
RETRY notice does reset the remaining budget of the drain loop. -/
theorem c2_timeout_cex :
    drainEvents (some "abc") 5 0 none
        [(4, some "abc", [("status", Val.vStr "RETRY")]),
         (8, some "abc", [("status", Val.vStr "RETRY")])]
      = (13, none)
    ∧ 5 + 5 < 13 :=
  ⟨rfl, by norm_num⟩

/-- C2 amended: for a stream with no terminal response whose events all
arrive within the timeout of their predecessor, call() returns the
timeout sentinel at instant (arrival of the last received event) +
timeout: the budget restarts at every received event, including RETRY
notices, rather than being wall-clock from call start.  With no events at
all the sentinel comes exactly at instant T. -/
theorem c2_timeout_from_last_event (corr : Option String) (T : Nat)
    (events : List TimedEvent)
    (h1 : ∀ e ∈ events, terminalFor corr e = false)
    (h2 : withinBudget T 0 events = true) :
    drainEvents corr T 0 none events = (lastTime 0 events + T, none) :=
  drain_no_terminal corr T events 0 none rfl h1 h2

/-- C2 amended witness: one RETRY notice at instant 4 with timeout 5
postpones the sentinel to instant 9. -/
theorem c2_timeout_from_last_event_witness :
    drainEvents (some "a") 5 0 none
        [(4, some "a", [("status", Val.vStr "RETRY")])]
      = (9, none) :=
  c2_timeout_from_last_event (some "a") 5 _ (by decide) (by decide)

/-- C8 counterexample: the run that times out with no event at all and the
run whose only event is a terminal empty response return exactly the same
value at the same instant, so a caller cannot distinguish a timeout from
a remote answering with an empty response: the empty terminal body is
absorbed into the timeout sentinel None. -/
theorem c8_sentinel_cex :
    drainEvents (some "abc") 5 0 none [] = (5, none)
    ∧ drainEvents (some "abc") 5 0 none [(0, some "abc", [])] = (5, none)
    ∧ statusIsRetry [] = false :=
  ⟨rfl, rfl, rfl⟩

/-- C8 amended: the drain loop of call() returns either the sentinel None
or a truthy (non-empty) terminal body, never an empty response payload.
The sentinel is therefore distinct from every value the loop actually
delivers, but an empty terminal response is indistinguishable from a
timeout (see the counterexample); callers observe a truthy terminal
payload, None, or a construction-time failure. -/
theorem c8_sentinel_or_truthy (corr : Option String) (T : Nat)
    (events : List TimedEvent) (now : Nat) (resp : Option RDict)
    (h : respTruthy resp = false) :
    (drainEvents corr T now resp events).2 = none
    ∨ ∃ d, (drainEvents corr T now resp events).2 = some d
         ∧ d.isEmpty = false := by
  induction events generalizing now resp with
  | nil => left; rw [drainEvents_nil, if_neg (by simp [h])]
  | cons e rest ih =>
      obtain ⟨t, mc, b⟩ := e
      rw [drainEvents_cons, if_neg (by simp [h])]
      by_cases ht : t ≤ now + T
      · rw [if_pos ht]
        cases hr : respTruthy (on_response corr resp b mc) with
        | false => exact ih _ _ hr
        | true =>
            rw [drain_of_truthy corr T _ _ rest hr]
            cases hor : on_response corr resp b mc with
            | none => rw [hor] at hr; simp [respTruthy] at hr
            | some d =>
                right
                refine ⟨d, rfl, ?_⟩
                rw [hor] at hr
                simpa [respTruthy] using hr
      · rw [if_neg ht]
        left; rfl

/-- C8 amended witness: an empty stream with a fresh call (no stored
response) yields the sentinel or a truthy body. -/
theorem c8_sentinel_or_truthy_witness :
    (drainEvents (some "a") 1 0 none []).2 = none
    ∨ ∃ d, (drainEvents (some "a") 1 0 none []).2 = some d
         ∧ d.isEmpty = false :=
  c8_sentinel_or_truthy (some "a") 1 [] 0 none rfl

/-- C7 counterexample: passing the keyword argument payload together with
positional arguments does not raise -- kwargs.pop("payload") runs before
the mutual-exclusivity check, so construction succeeds although both
positional arguments and a (non-empty) keyword argument dict were
supplied. -/
theorem c7_construction_cex :
    initOk (initPublisher (krakenClass (some "u") (some "p")) "cid"
        (krakenGetPayload "m") [Val.vInt 1, Val.vInt 2]
        [("payload", Val.vStr "body")]) = true
    ∧ ([Val.vInt 1, Val.vInt 2] : List Val).isEmpty = false
    ∧ ([("payload", Val.vStr "body")] : RDict).isEmpty = false :=
  ⟨rfl, rfl, rfl⟩

/-- C7 amended: construction raises -- before any connection is opened or
message published, since publishing only happens inside call(), which
requires the state a successful construction returns -- whenever
positional arguments are combined with keyword arguments other than
payload, and likewise whenever both credentials are missing.  The payload
keyword argument alone is exempt, being popped before the
mutual-exclusivity check. -/
theorem c7_construction_checks (cls : PubClass) (fresh : String)
    (gp : Option String → List Val → RDict → Val)
    (args : List Val) (kwargs : RDict)
    (h : (args.isEmpty = false
          ∧ (kwargs.filter (fun q => q.1 ≠ "payload")).isEmpty = false)
         ∨ (cls.user = none ∧ cls.password = none)) :
    ∃ e, initPublisher cls fresh gp args kwargs = .error e := by
  unfold initPublisher
  by_cases hc : cls.user = none ∧ cls.password = none
  · rw [if_pos hc]; exact ⟨_, rfl⟩
  · rw [if_neg hc]
    rcases h with ⟨ha, hk⟩ | h2
    · by_cases he : cls.exchange = none
      · rw [if_pos he]; exact ⟨_, rfl⟩
      · rw [if_neg he, if_pos (by rw [ha, hk]; rfl)]
        exact ⟨_, rfl⟩
    · exact absurd h2 hc

/-- C7 witness: positional arguments (1, 2) with keyword arguments
containing x raise, and missing credentials raise. -/
theorem c7_construction_checks_witness :
    (∃ e, initPublisher (krakenClass (some "u") (some "p")) "cid"
        (krakenGetPayload "m") [Val.vInt 1, Val.vInt 2]
        [("x", Val.vInt 1)] = .error e)
    ∧ (∃ e, initPublisher { exchange := some "kraken" } "cid"
        (krakenGetPayload "m") [] [] = .error e) :=
  ⟨c7_construction_checks _ _ _ _ _ (Or.inl ⟨rfl, rfl⟩),
   c7_construction_checks _ _ _ _ _ (Or.inr ⟨rfl, rfl⟩)⟩

/-- C9: a payload keyword argument bypasses the args/kwargs
mutual-exclusivity check: construction with positional arguments plus
payload= succeeds, and when the supplied payload is truthy it is stored
verbatim and published verbatim as the message body by call(), in place
of the get_payload() envelope. -/
theorem c9_payload_bypass (cls : PubClass) (fresh : String)
    (gp : Option String → List Val → RDict → Val)
    (args : List Val) (p : Val)
    (hcred : ¬(cls.user = none ∧ cls.password = none))
    (hex : ¬cls.exchange = none) :
    ∃ st, initPublisher cls fresh gp args [("payload", p)] = .ok st
      ∧ (truthy p = true → st.payload = p)
      ∧ (∀ (rk : String) (events : List TimedEvent),
           cls.routing_key = some rk →
           ∃ out, call st events = .ok out ∧ out.1.body = st.payload) := by
  refine ⟨{ cls := cls, args := args, kwargs := [],
            corr_id := if cls.needs_response then some fresh else none,
            payload := if truthy p then p
                       else gp (if cls.needs_response then some fresh else none)
                               args [] }, ?_, ?_, ?_⟩
  · unfold initPublisher
    rw [if_neg hcred, if_neg hex, if_neg (by simp)]
    rfl
  · intro ht; rw [ht]; simp
  · intro rk events hrk
    unfold call get_routing_key
    rw [hrk]
    cases hn : cls.needs_response with
    | true => exact ⟨_, rfl, rfl⟩
    | false => exact ⟨_, rfl, rfl⟩

/-- C9 witness: Kraken credentials with one positional argument and a
truthy payload string construct successfully. -/
theorem c9_payload_bypass_witness :
    ∃ st, initPublisher (krakenClass (some "u") (some "p")) "cid"
        (krakenGetPayload "m") [Val.vInt 1] [("payload", Val.vStr "x")] = .ok st
      ∧ (truthy (Val.vStr "x") = true → st.payload = Val.vStr "x")
      ∧ (∀ (rk : String) (events : List TimedEvent),
           (krakenClass (some "u") (some "p")).routing_key = some rk →
           ∃ out, call st events = .ok out ∧ out.1.body = st.payload) :=
  c9_payload_bypass _ _ _ _ _ (by decide) (by decide)

/-- Inversion of a successful construction: the stored class, correlation
id and payload of the state a successful __init__ returns. -/
theorem initPublisher_ok_inversion (cls : PubClass) (fresh : String)
    (gp : Option String → List Val → RDict → Val)
    (args : List Val) (kwargs : RDict) (st : PublisherState)
    (h : initPublisher cls fresh gp args kwargs = .ok st) :
    st.cls = cls
    ∧ st.corr_id = (if cls.needs_response then some fresh else none)
    ∧ st.payload =
        (match dget kwargs "payload" with
         | some p =>
             if truthy p then p
             else gp st.corr_id args (kwargs.filter (fun q => q.1 ≠ "payload"))
         | none => gp st.corr_id args (kwargs.filter (fun q => q.1 ≠ "payload"))) := by
  unfold initPublisher at h
  split at h
  · exact absurd h (by simp)
  · split at h
    · exact absurd h (by simp)
    · split at h
      · exact absurd h (by simp)
      · simp only [Except.ok.injEq] at h
        subst h
        exact ⟨rfl, rfl, rfl⟩

/-- C10: when a publisher does not require a response -- as with both
concrete publishers, KrakenPublisher and NautilusPublisher -- no
correlation id is generated: corr_id stays None; the envelope built by
get_payload carries id = None both at top level and inside its kwargs
dict; the publish properties contain neither correlation_id nor reply_to;
and call() returns None immediately after publishing (at instant 0),
whatever events arrive. -/
theorem c10_no_response_mode (u p : Option String) (m fresh : String)
    (args : List Val) (kwargs : RDict) (stK stN : PublisherState)
    (hp : dget kwargs "payload" = none)
    (hK : initPublisher (krakenClass u p) fresh (krakenGetPayload m)
            args kwargs = .ok stK)
    (hN : initPublisher (nautilusClass u p) fresh (nautilusGetPayload m)
            args kwargs = .ok stN) :
    stK.corr_id = none ∧ stN.corr_id = none
    ∧ vget stK.payload "id" = some Val.vNull
    ∧ vget2 stK.payload "kwargs" "id" = some Val.vNull
    ∧ vget stN.payload "id" = some Val.vNull
    ∧ vget2 stN.payload "kwargs" "id" = some Val.vNull
    ∧ get_properties (krakenClass u p).needs_response stK.corr_id
        = [("delivery_mode", Val.vInt 2)]
    ∧ get_properties (nautilusClass u p).needs_response stN.corr_id
        = [("delivery_mode", Val.vInt 2)]
    ∧ dget (get_properties (krakenClass u p).needs_response stK.corr_id)
        "correlation_id" = none
    ∧ dget (get_properties (nautilusClass u p).needs_response stN.corr_id)
        "reply_to" = none
    ∧ (∀ events, ∃ pub, call stK events = .ok (pub, 0, none))
    ∧ (∀ events, ∃ pub, call stN events = .ok (pub, 0, none)) := by
  obtain ⟨hKc, hKcorr, hKpay⟩ :=
    initPublisher_ok_inversion _ _ _ _ _ _ hK
  obtain ⟨hNc, hNcorr, hNpay⟩ :=
    initPublisher_ok_inversion _ _ _ _ _ _ hN
  rw [hp] at hKpay hNpay
  have hKcorr2 : stK.corr_id = none := by simpa [krakenClass] using hKcorr
  have hNcorr2 : stN.corr_id = none := by simpa [nautilusClass] using hNcorr
  rw [hKcorr2] at hKpay
  rw [hNcorr2] at hNpay
  refine ⟨hKcorr2, hNcorr2, ?_, ?_, ?_, ?_, ?_, ?_, ?_, ?_, ?_, ?_⟩
  · rw [hKpay]; simp [krakenGetPayload, vget, dget, corrVal]
  · rw [hKpay]; simp [krakenGetPayload, vget, vget2, dget, corrVal]
  · rw [hNpay]; simp [nautilusGetPayload, vget, dget, corrVal]
  · rw [hNpay]; simp [nautilusGetPayload, vget, vget2, dget, corrVal]
  · simp [get_properties, krakenClass]
  · simp [get_properties, nautilusClass]
  · simp [get_properties, krakenClass, dget]
  · simp [get_properties, nautilusClass, dget]
  · intro events
    refine ⟨{ body := stK.payload, rkey := "kraken",
              props := get_properties (krakenClass u p).needs_response
                         stK.corr_id }, ?_⟩
    unfold call
    rw [hKc]
    rfl
  · intro events
    refine ⟨{ body := stN.payload, rkey := "nautilus",
              props := get_properties (nautilusClass u p).needs_response
                         stN.corr_id }, ?_⟩
    unfold call
    rw [hNc]
    rfl

/-- The publisher state KrakenPublisher("m") builds with credentials u/p
and no call arguments. -/
def krakenDefaultState : PublisherState :=
  { cls := krakenClass (some "u") (some "p"), args := [], kwargs := [],
    corr_id := none, payload := krakenGetPayload "m" none [] [] }

/-- The publisher state NautilusPublisher("m") builds with credentials u/p
and no call arguments. -/
def nautilusDefaultState : PublisherState :=
  { cls := nautilusClass (some "u") (some "p"), args := [], kwargs := [],
    corr_id := none, payload := nautilusGetPayload "m" none [] [] }

/-- C10 witness: concrete Kraken and Nautilus constructions with no
arguments exhibit the fire-and-forget behaviour. -/
theorem c10_no_response_mode_witness :
    krakenDefaultState.corr_id = none ∧ nautilusDefaultState.corr_id = none
    ∧ vget krakenDefaultState.payload "id" = some Val.vNull
    ∧ vget2 krakenDefaultState.payload "kwargs" "id" = some Val.vNull
    ∧ vget nautilusDefaultState.payload "id" = some Val.vNull
    ∧ vget2 nautilusDefaultState.payload "kwargs" "id" = some Val.vNull
    ∧ get_properties (krakenClass (some "u") (some "p")).needs_response
        krakenDefaultState.corr_id = [("delivery_mode", Val.vInt 2)]
    ∧ get_properties (nautilusClass (some "u") (some "p")).needs_response
        nautilusDefaultState.corr_id = [("delivery_mode", Val.vInt 2)]
    ∧ dget (get_properties (krakenClass (some "u") (some "p")).needs_response
        krakenDefaultState.corr_id) "correlation_id" = none
    ∧ dget (get_properties (nautilusClass (some "u") (some "p")).needs_response
        nautilusDefaultState.corr_id) "reply_to" = none
    ∧ (∀ events, ∃ pub, call krakenDefaultState events = .ok (pub, 0, none))
    ∧ (∀ events, ∃ pub, call nautilusDefaultState events = .ok (pub, 0, none)) :=
  c10_no_response_mode (some "u") (some "p") "m" "f" [] []
    krakenDefaultState nautilusDefaultState rfl rfl rfl

end Tentacle
